import Mathlib

/-!
Shallow embedding of the credential & token lifecycle core of the
user-authentication-service repository (src/services/authService.ts,
src/utils/jwt.ts, src/config/environment.ts).

The persistent store (Prisma/PostgreSQL) is modelled as lists of user and
token rows; each Prisma call (`findUnique`, `create`, `update`, `delete`,
`deleteMany`) becomes one primitive on `Store`.  Times are naturals
(milliseconds since the epoch), so `new Date()` becomes an explicit `now`
argument and `tokenRecord.expiresAt < new Date()` becomes
`r.expiresAt < now`.  Ambient randomness (`crypto.randomBytes(32)`,
fresh row ids) is passed in as explicit arguments.  `bcrypt` hashing is an
injected function `hashFn` and comparison an injected relation `cmpFn`.
Email delivery (`emailService.send*`) either succeeds or throws; it is
modelled by a boolean `emailOk`, and the emails actually handed to the
transport are collected in the outcome.  A thrown `Error(msg)` is
`Except.error msg`.

Only the user fields the auth flows read or write are modelled
(`id`, `email`, `passwordHash`, `isVerified`); `firstName`, `lastName`,
`phone`, `role`, `createdAt` are carried through the source unchanged and
play no role in any claim.
-/

/-- `TokenType` enum from the Prisma schema, as imported by authService.ts. -/
inductive TokenType where
  | EMAIL_VERIFICATION
  | PASSWORD_RESET
deriving DecidableEq, Repr

/-- A row of the `user` table (the fields the auth flows touch). -/
structure User where
  id : Nat
  email : String
  passwordHash : Option String
  isVerified : Bool
deriving DecidableEq, Repr

/-- A row of the `token` table. -/
structure TokenRec where
  id : Nat
  token : String
  type : TokenType
  userId : Nat
  expiresAt : Nat
deriving DecidableEq, Repr

/-- The persistent store: the `user` and `token` tables. -/
structure Store where
  users : List User
  tokens : List TokenRec
deriving DecidableEq, Repr

/-- An email handed to the mail transport: `(isVerification, recipient, token)`.
`true` marks `sendVerificationEmail`, `false` `sendPasswordResetEmail`. -/
structure SentEmail where
  isVerification : Bool
  recipient : String
  tokenValue : String
deriving DecidableEq, Repr

deriving instance DecidableEq for Except

/-- Result of one auth flow: the value returned or the `Error` message thrown,
the store after the flow (state changes persist even when the flow throws),
and the emails that reached the transport. -/
structure Outcome (α : Type) where
  res : Except String α
  store : Store
  sent : List SentEmail
deriving DecidableEq, Repr

/-- `prisma.user.findUnique({ where: { email } })`: exact-match lookup on the
unique `email` column. -/
def Store.findUserByEmail (s : Store) (email : String) : Option User :=
  s.users.find? (fun u => u.email = email)

/-- `prisma.token.findUnique({ where: { token } })`: exact-match lookup on the
unique `token` column. -/
def Store.findToken (s : Store) (v : String) : Option TokenRec :=
  s.tokens.find? (fun t => t.token = v)

/-- `prisma.user.create({ data: ... })`. -/
def Store.addUser (s : Store) (u : User) : Store :=
  { s with users := s.users ++ [u] }

/-- `prisma.token.create({ data: ... })`. -/
def Store.addToken (s : Store) (t : TokenRec) : Store :=
  { s with tokens := s.tokens ++ [t] }

/-- `prisma.user.update({ where: { id }, data: { isVerified: true } })`. -/
def Store.setUserVerified (s : Store) (uid : Nat) : Store :=
  { s with users := s.users.map (fun u => if u.id = uid then { u with isVerified := true } else u) }

/-- `prisma.user.update({ where: { id }, data: { passwordHash } })`. -/
def Store.setUserPassword (s : Store) (uid : Nat) (h : String) : Store :=
  { s with users := s.users.map (fun u => if u.id = uid then { u with passwordHash := some h } else u) }

/-- `prisma.token.delete({ where: { id } })`: deletes the row, or throws
(Prisma error P2025) when no row with that id exists. -/
def Store.deleteToken (s : Store) (i : Nat) : Except String Store :=
  if s.tokens.any (fun t => t.id = i) then
    .ok { s with tokens := s.tokens.filter (fun t => ¬ t.id = i) }
  else
    .error "Record to delete does not exist."

/-- `prisma.token.deleteMany({ where: { userId, type } })`. -/
def Store.deleteTokensByUserAndType (s : Store) (uid : Nat) (ty : TokenType) : Store :=
  { s with tokens := s.tokens.filter (fun t => ¬ (t.userId = uid ∧ t.type = ty)) }

/-- 24 hours in milliseconds (`24 * 60 * 60 * 1000` in authService.ts). -/
def twentyFourHoursMs : Nat := 24 * 60 * 60 * 1000

/-- 1 hour in milliseconds (`60 * 60 * 1000` in authService.ts). -/
def oneHourMs : Nat := 60 * 60 * 1000

/-- `AuthService.register` (authService.ts:11-155).  Checks for an existing
user by exact email lookup, hashes the password, creates the user
(`isVerified` defaults to false), creates an EMAIL_VERIFICATION token with a
24h expiry, then tries to send the verification email inside its own
try/catch — a send failure is logged and registration continues.  Returns the
new user's id (the JWTs issued for immediate login carry no store state). -/
def register (hashFn : String → String) (emailOk : Bool) (email password : String)
    (freshUserId freshTokenId : Nat) (tokenValue : String) (now : Nat)
    (s : Store) : Outcome Nat :=
  match s.findUserByEmail email with
  | some _ => ⟨.error "User already exists with this email", s, []⟩
  | none =>
    let passwordHash := hashFn password
    let user : User := ⟨freshUserId, email, some passwordHash, false⟩
    let s1 := s.addUser user
    let tok : TokenRec := ⟨freshTokenId, tokenValue, .EMAIL_VERIFICATION, freshUserId,
      now + twentyFourHoursMs⟩
    let s2 := s1.addToken tok
    ⟨.ok freshUserId, s2, if emailOk then [⟨true, email, tokenValue⟩] else []⟩

/-- `AuthService.login` (authService.ts:157-256).  Missing user and user
without a password hash throw the same message as a failed password
comparison.  Returns the user's id on success (the JWTs carry no store
state). -/
def login (cmpFn : String → String → Bool) (email password : String)
    (s : Store) : Except String Nat :=
  match s.findUserByEmail email with
  | none => .error "Invalid email or password"
  | some user =>
    match user.passwordHash with
    | none => .error "Invalid email or password"
    | some h =>
      if cmpFn password h then .ok user.id
      else .error "Invalid email or password"

/-- `AuthService.verifyEmail` (authService.ts:258-333).  Looks the token up by
value; a missing row and a row whose type is not EMAIL_VERIFICATION throw the
same message; an expired row (`expiresAt < new Date()`) throws; otherwise the
user is marked verified and then the token row is deleted. -/
def verifyEmail (tokenValue : String) (now : Nat) (s : Store) : Outcome Nat :=
  match s.findToken tokenValue with
  | none => ⟨.error "Invalid verification token", s, []⟩
  | some r =>
    if ¬ r.type = .EMAIL_VERIFICATION then ⟨.error "Invalid verification token", s, []⟩
    else if r.expiresAt < now then ⟨.error "Verification token has expired", s, []⟩
    else
      let s1 := s.setUserVerified r.userId
      match s1.deleteToken r.id with
      | .ok s2 => ⟨.ok r.userId, s2, []⟩
      | .error e => ⟨.error e, s1, []⟩

/-- `AuthService.forgotPassword` (authService.ts:335-417).  Unknown email:
return silently with no state change.  Known email: create a PASSWORD_RESET
token with a 1h expiry (no deletion of prior reset tokens), then try to send
the reset email inside its own try/catch — a send failure is logged and the
flow still returns success. -/
def forgotPassword (emailOk : Bool) (email : String) (freshTokenId : Nat)
    (tokenValue : String) (now : Nat) (s : Store) : Outcome Unit :=
  match s.findUserByEmail email with
  | none => ⟨.ok (), s, []⟩
  | some user =>
    let tok : TokenRec := ⟨freshTokenId, tokenValue, .PASSWORD_RESET, user.id, now + oneHourMs⟩
    let s1 := s.addToken tok
    ⟨.ok (), s1, if emailOk then [⟨false, email, tokenValue⟩] else []⟩

/-- `AuthService.resendVerificationEmail` (authService.ts:419-474).  Unknown
email and already-verified user throw.  Otherwise all EMAIL_VERIFICATION
tokens of the user are deleted, a fresh one with a 24h expiry is created, and
the verification email is sent WITHOUT a surrounding try/catch: a send
failure propagates out of the flow (the outer catch only logs and rethrows),
while the token replacement already persisted. -/
def resendVerificationEmail (emailOk : Bool) (email : String) (freshTokenId : Nat)
    (tokenValue : String) (now : Nat) (s : Store) : Outcome Unit :=
  match s.findUserByEmail email with
  | none => ⟨.error "User not found", s, []⟩
  | some user =>
    if user.isVerified then ⟨.error "Email is already verified", s, []⟩
    else
      let s1 := s.deleteTokensByUserAndType user.id .EMAIL_VERIFICATION
      let tok : TokenRec := ⟨freshTokenId, tokenValue, .EMAIL_VERIFICATION, user.id,
        now + twentyFourHoursMs⟩
      let s2 := s1.addToken tok
      if emailOk then ⟨.ok (), s2, [⟨true, email, tokenValue⟩]⟩
      else ⟨.error "Email send failed", s2, []⟩

/-- The tail of `AuthService.resetPassword` after the
`prisma.token.findUnique` call returned `some r` (authService.ts:491-549):
validate type and expiry, hash the new password, update the user's
`passwordHash`, then delete the token row; a failing delete (row already
gone) throws while the password update persists. -/
def resetAfterFind (hashFn : String → String) (r : TokenRec) (newPassword : String)
    (now : Nat) (s : Store) : Except String Nat × Store :=
  if ¬ r.type = .PASSWORD_RESET then (.error "Invalid reset token", s)
  else if r.expiresAt < now then (.error "Reset token has expired", s)
  else
    let passwordHash := hashFn newPassword
    let s1 := s.setUserPassword r.userId passwordHash
    match s1.deleteToken r.id with
    | .ok s2 => (.ok r.userId, s2)
    | .error e => (.error e, s1)

/-- `AuthService.resetPassword` (authService.ts:476-557).  A missing row and a
row whose type is not PASSWORD_RESET throw the same message; the rest is
`resetAfterFind`. -/
def resetPassword (hashFn : String → String) (tokenValue newPassword : String)
    (now : Nat) (s : Store) : Outcome Nat :=
  match s.findToken tokenValue with
  | none => ⟨.error "Invalid reset token", s, []⟩
  | some r =>
    ⟨(resetAfterFind hashFn r newPassword now s).1, (resetAfterFind hashFn r newPassword now s).2, []⟩

/-- Two concurrent `resetPassword` calls A and B on the same token value,
scheduled as: A's `findUnique`, B's `findUnique`, then A's validate/update/
delete, then B's validate/update/delete.  Both reads hit the store before
either write, which is a legal schedule because each Prisma call is a
separate await on the shared database and nothing groups a call's sequence
into a transaction.  Returns A's result, B's result, and the final store. -/
def twoResetInterleaved (hashFn : String → String) (tokenValue pA pB : String)
    (now : Nat) (s0 : Store) : Except String Nat × Except String Nat × Store :=
  match s0.findToken tokenValue with
  | none => (.error "Invalid reset token", .error "Invalid reset token", s0)
  | some r =>
    ((resetAfterFind hashFn r pA now s0).1,
     (resetAfterFind hashFn r pB now (resetAfterFind hashFn r pA now s0).2).1,
     (resetAfterFind hashFn r pB now (resetAfterFind hashFn r pA now s0).2).2)

/-- `generateToken` (jwt.ts:5-10) picks the JWT lifetime:
`rememberMe ? '30d' : config.jwt.expiresIn`, the latter from
`JWT_EXPIRES_IN` with default `'7d'` (environment.ts).  Durations in
milliseconds. -/
def thirtyDaysMs : Nat := 30 * twentyFourHoursMs

/-- Default of `config.jwt.expiresIn`: `'7d'`. -/
def sevenDaysMs : Nat := 7 * twentyFourHoursMs

/-- The validity window (expiry minus issue time) of the access token issued
by `generateToken` under configuration `cfgExpiresIn` (the parsed
`config.jwt.expiresIn`). -/
def tokenValidityWindow (cfgExpiresIn : Nat) (rememberMe : Bool) : Nat :=
  if rememberMe then thirtyDaysMs else cfgExpiresIn

/-! ### Helper lemmas about the store primitives -/

/-- A successful token lookup returns a row of the table carrying the
looked-up value. -/
theorem findToken_mem_token {s : Store} {v : String} {r : TokenRec}
    (h : s.findToken v = some r) : r ∈ s.tokens ∧ r.token = v := by
  refine ⟨List.mem_of_find?_eq_some h, ?_⟩
  have hp := List.find?_some h
  exact of_decide_eq_true hp

/-- Deleting a row that is present succeeds and filters it out by id. -/
theorem deleteToken_of_mem {s : Store} {r : TokenRec} (h : r ∈ s.tokens) :
    s.deleteToken r.id =
      .ok { s with tokens := s.tokens.filter (fun t => ¬ t.id = r.id) } := by
  unfold Store.deleteToken
  rw [if_pos]
  exact List.any_eq_true.mpr ⟨r, h, by simp⟩

/-- After removing (by id) the unique row carrying value `v` from a table
whose values are pairwise distinct, no row with value `v` remains. -/
theorem find_value_after_remove {l : List TokenRec} {v : String} {r : TokenRec}
    (hmem : r ∈ l) (hval : r.token = v)
    (hvals : (l.map TokenRec.token).Nodup) :
    (l.filter (fun t => ¬ t.id = r.id)).find? (fun t => t.token = v) = none := by
  apply List.find?_eq_none.mpr
  intro t ht hp
  have ht1 : t ∈ l := List.mem_of_mem_filter ht
  have ht2 := List.of_mem_filter ht
  have htv : t.token = v := of_decide_eq_true hp
  have hteq : t = r :=
    List.inj_on_of_nodup_map hvals ht1 hmem (by rw [htv, hval])
  subst hteq
  simp at ht2

/-! ### C9 -/

/-- C9: `forgotPassword` on an email that matches no user returns success and
leaves the store completely unchanged — no token record is created, no user
record is modified, and no email is sent. -/
theorem c9_forgotPassword_unknown_email_no_effect (emailOk : Bool) (email : String)
    (freshTokenId : Nat) (tokenValue : String) (now : Nat) (s : Store)
    (h : s.findUserByEmail email = none) :
    forgotPassword emailOk email freshTokenId tokenValue now s = ⟨.ok (), s, []⟩ := by
  simp [forgotPassword, h]

/-- Witness for C9 at a concrete store holding an unrelated user. -/
theorem c9_witness :
    (Store.mk [⟨1, "a@b.com", some "H", false⟩] []).findUserByEmail "x@y.com" = none ∧
    forgotPassword true "x@y.com" 7 "NEW" 0 (Store.mk [⟨1, "a@b.com", some "H", false⟩] [])
      = ⟨.ok (), Store.mk [⟨1, "a@b.com", some "H", false⟩] [], []⟩ :=
  ⟨by decide, c9_forgotPassword_unknown_email_no_effect true "x@y.com" 7 "NEW" 0 _ (by decide)⟩

/-! ### C6 -/

/-- C6: a login whose email matches no user (or a user with no password hash)
and a login with an existing user's email but a non-matching password both
fail, and the thrown error is the identical value ("Invalid email or
password"), so the caller cannot distinguish the two cases. -/
theorem c6_login_indistinguishable (cmpFn : String → String → Bool) (s : Store)
    (emailU pwU emailW pwW : String)
    (hU : s.findUserByEmail emailU = none ∨
      ∃ u, s.findUserByEmail emailU = some u ∧ u.passwordHash = none)
    (hW : ∃ u h, s.findUserByEmail emailW = some u ∧ u.passwordHash = some h ∧
      cmpFn pwW h = false) :
    login cmpFn emailU pwU s = .error "Invalid email or password" ∧
    login cmpFn emailW pwW s = .error "Invalid email or password" ∧
    login cmpFn emailU pwU s = login cmpFn emailW pwW s := by
  obtain ⟨u, h, hu, hh, hcmp⟩ := hW
  have h2 : login cmpFn emailW pwW s = .error "Invalid email or password" := by
    simp [login, hu, hh, hcmp]
  rcases hU with h1 | ⟨u1, hu1, hh1⟩
  · have hL : login cmpFn emailU pwU s = .error "Invalid email or password" := by
      simp [login, h1]
    exact ⟨hL, h2, by rw [hL, h2]⟩
  · have hL : login cmpFn emailU pwU s = .error "Invalid email or password" := by
      simp [login, hu1, hh1]
    exact ⟨hL, h2, by rw [hL, h2]⟩

/-- Witness for C6: a store with one user whose hash is "H", a comparison
function that only accepts "good", an unknown email, and a wrong password. -/
theorem c6_witness :
    ((Store.mk [⟨1, "a@b.com", some "H", false⟩] []).findUserByEmail "x@y.com" = none ∨
      ∃ u, (Store.mk [⟨1, "a@b.com", some "H", false⟩] []).findUserByEmail "x@y.com" = some u ∧
        u.passwordHash = none) ∧
    (∃ u h, (Store.mk [⟨1, "a@b.com", some "H", false⟩] []).findUserByEmail "a@b.com" = some u ∧
      u.passwordHash = some h ∧ (fun p _ => p == "good") "bad" h = false) ∧
    login (fun p _ => p == "good") "x@y.com" "whatever" (Store.mk [⟨1, "a@b.com", some "H", false⟩] [])
      = login (fun p _ => p == "good") "a@b.com" "bad" (Store.mk [⟨1, "a@b.com", some "H", false⟩] []) := by
  refine ⟨Or.inl (by decide), ⟨⟨1, "a@b.com", some "H", false⟩, "H", by decide, rfl, by decide⟩, ?_⟩
  exact (c6_login_indistinguishable (fun p _ => p == "good") _ "x@y.com" "whatever" "a@b.com" "bad"
    (Or.inl (by decide)) ⟨⟨1, "a@b.com", some "H", false⟩, "H", by decide, rfl, by decide⟩).2.2

/-! ### C10 -/

/-- C10: whenever `verifyEmail` or `resetPassword` fails (token value absent,
stored purpose differs, or token expired), the store is left completely
unchanged — no user field is modified, no password is updated, and no token
record is deleted; in particular an expired token record survives the failed
attempt and remains in the store. -/
theorem c10_failed_consume_frame (s : Store) (v : String) (now : Nat)
    (hashFn : String → String) (np : String) :
    (∀ e, (verifyEmail v now s).res = .error e →
       (verifyEmail v now s).store = s ∧ (verifyEmail v now s).sent = []) ∧
    (∀ e, (resetPassword hashFn v np now s).res = .error e →
       (resetPassword hashFn v np now s).store = s ∧
       (resetPassword hashFn v np now s).sent = []) ∧
    (∀ r, s.findToken v = some r → r.expiresAt < now →
       (∃ e, (verifyEmail v now s).res = .error e) ∧
       (∃ e, (resetPassword hashFn v np now s).res = .error e) ∧
       r ∈ (verifyEmail v now s).store.tokens ∧
       r ∈ (resetPassword hashFn v np now s).store.tokens) := by
  have hver : ∀ e, (verifyEmail v now s).res = .error e →
      (verifyEmail v now s).store = s ∧ (verifyEmail v now s).sent = [] := by
    intro e herr
    cases hfind : s.findToken v with
    | none => simp [verifyEmail, hfind]
    | some r =>
      obtain ⟨hmem, hval⟩ := findToken_mem_token hfind
      by_cases hty : r.type = TokenType.EMAIL_VERIFICATION
      · by_cases hexp : r.expiresAt < now
        · simp [verifyEmail, hfind, hty, hexp]
        · have hmem' : r ∈ (s.setUserVerified r.userId).tokens := hmem
          have hdel := deleteToken_of_mem hmem'
          simp [verifyEmail, hfind, hty, hexp, hdel] at herr
      · simp [verifyEmail, hfind, hty]
  have hres : ∀ e, (resetPassword hashFn v np now s).res = .error e →
      (resetPassword hashFn v np now s).store = s ∧
      (resetPassword hashFn v np now s).sent = [] := by
    intro e herr
    cases hfind : s.findToken v with
    | none => simp [resetPassword, hfind]
    | some r =>
      obtain ⟨hmem, hval⟩ := findToken_mem_token hfind
      by_cases hty : r.type = TokenType.PASSWORD_RESET
      · by_cases hexp : r.expiresAt < now
        · simp [resetPassword, resetAfterFind, hfind, hty, hexp]
        · have hmem' : r ∈ (s.setUserPassword r.userId (hashFn np)).tokens := hmem
          have hdel := deleteToken_of_mem hmem'
          simp [resetPassword, resetAfterFind, hfind, hty, hexp, hdel] at herr
      · simp [resetPassword, resetAfterFind, hfind, hty]
  refine ⟨hver, hres, ?_⟩
  intro r hfind hexp
  obtain ⟨hmem, hval⟩ := findToken_mem_token hfind
  have hv1 : ∃ e, (verifyEmail v now s).res = .error e := by
    by_cases hty : r.type = TokenType.EMAIL_VERIFICATION
    · exact ⟨"Verification token has expired", by simp [verifyEmail, hfind, hty, hexp]⟩
    · exact ⟨"Invalid verification token", by simp [verifyEmail, hfind, hty]⟩
  have hv2 : ∃ e, (resetPassword hashFn v np now s).res = .error e := by
    by_cases hty : r.type = TokenType.PASSWORD_RESET
    · exact ⟨"Reset token has expired",
        by simp [resetPassword, resetAfterFind, hfind, hty, hexp]⟩
    · exact ⟨"Invalid reset token", by simp [resetPassword, resetAfterFind, hfind, hty]⟩
  obtain ⟨e1, he1⟩ := hv1
  obtain ⟨e2, he2⟩ := hv2
  have hst1 := (hver e1 he1).1
  have hst2 := (hres e2 he2).1
  exact ⟨⟨e1, he1⟩, ⟨e2, he2⟩, by rw [hst1]; exact hmem, by rw [hst2]; exact hmem⟩

/-- Witness for C10 at a concrete store holding one expired token. -/
theorem c10_witness :
    (verifyEmail "T" 200
        (Store.mk [⟨1, "a@b.com", some "H", false⟩]
          [⟨10, "T", TokenType.EMAIL_VERIFICATION, 1, 100⟩])).res
      = .error "Verification token has expired" ∧
    (verifyEmail "T" 200
        (Store.mk [⟨1, "a@b.com", some "H", false⟩]
          [⟨10, "T", TokenType.EMAIL_VERIFICATION, 1, 100⟩])).store
      = Store.mk [⟨1, "a@b.com", some "H", false⟩]
          [⟨10, "T", TokenType.EMAIL_VERIFICATION, 1, 100⟩] :=
  ⟨by decide,
    ((c10_failed_consume_frame
        (Store.mk [⟨1, "a@b.com", some "H", false⟩]
          [⟨10, "T", TokenType.EMAIL_VERIFICATION, 1, 100⟩]) "T" 200 (fun p => p) "x").1
      "Verification token has expired" (by decide)).1⟩

/-! ### C3 -/

/-- C3: a one-time token is sequentially consumable at most once.  Whenever a
`verifyEmail` (resp. `resetPassword`) call succeeds, the consumed token
record is deleted from the store (lookup of the raw value now returns
nothing), and every subsequent consume call with the same raw value — by
either flow, at any later time, with any hash function — fails with the
not-found-equivalent error.  The hypothesis that stored token values are
pairwise distinct is the store's uniqueness constraint on the `token`
column. -/
theorem c3_consume_exactly_once (s : Store) (v : String) (now : Nat)
    (hvals : (s.tokens.map TokenRec.token).Nodup)
    (hashFn : String → String) (np : String) :
    (∀ uid s2 sent, verifyEmail v now s = ⟨.ok uid, s2, sent⟩ →
       s2.findToken v = none ∧
       (∀ now2, (verifyEmail v now2 s2).res = .error "Invalid verification token") ∧
       (∀ now2 hashFn2 np2,
         (resetPassword hashFn2 v np2 now2 s2).res = .error "Invalid reset token")) ∧
    (∀ uid s2 sent, resetPassword hashFn v np now s = ⟨.ok uid, s2, sent⟩ →
       s2.findToken v = none ∧
       (∀ now2, (verifyEmail v now2 s2).res = .error "Invalid verification token") ∧
       (∀ now2 hashFn2 np2,
         (resetPassword hashFn2 v np2 now2 s2).res = .error "Invalid reset token")) := by
  constructor
  · intro uid s2 sent hsucc
    cases hfind : s.findToken v with
    | none => simp [verifyEmail, hfind] at hsucc
    | some r =>
      obtain ⟨hmem, hval⟩ := findToken_mem_token hfind
      by_cases hty : r.type = TokenType.EMAIL_VERIFICATION
      · by_cases hexp : r.expiresAt < now
        · simp [verifyEmail, hfind, hty, hexp] at hsucc
        · have hmem' : r ∈ (s.setUserVerified r.userId).tokens := hmem
          have hdel := deleteToken_of_mem hmem'
          simp [verifyEmail, hfind, hty, hexp, hdel] at hsucc
          obtain ⟨-, hs2, -⟩ := hsucc
          have hnone : s2.findToken v = none := by
            rw [← hs2]
            simpa [Store.findToken, Store.setUserVerified]
              using find_value_after_remove hmem hval hvals
          exact ⟨hnone, fun now2 => by simp [verifyEmail, hnone],
            fun now2 hashFn2 np2 => by simp [resetPassword, hnone]⟩
      · simp [verifyEmail, hfind, hty] at hsucc
  · intro uid s2 sent hsucc
    cases hfind : s.findToken v with
    | none => simp [resetPassword, hfind] at hsucc
    | some r =>
      obtain ⟨hmem, hval⟩ := findToken_mem_token hfind
      by_cases hty : r.type = TokenType.PASSWORD_RESET
      · by_cases hexp : r.expiresAt < now
        · simp [resetPassword, resetAfterFind, hfind, hty, hexp] at hsucc
        · have hmem' : r ∈ (s.setUserPassword r.userId (hashFn np)).tokens := hmem
          have hdel := deleteToken_of_mem hmem'
          simp [resetPassword, resetAfterFind, hfind, hty, hexp, hdel] at hsucc
          obtain ⟨-, hs2, -⟩ := hsucc
          have hnone : s2.findToken v = none := by
            rw [← hs2]
            simpa [Store.findToken, Store.setUserPassword]
              using find_value_after_remove hmem hval hvals
          exact ⟨hnone, fun now2 => by simp [verifyEmail, hnone],
            fun now2 hashFn2 np2 => by simp [resetPassword, hnone]⟩
      · simp [resetPassword, resetAfterFind, hfind, hty] at hsucc

/-- Witness for C3 at a concrete store: one user, one fresh verification
token; consuming it succeeds, after which the value is gone and a second
consume fails. -/
theorem c3_witness :
    (((Store.mk [⟨1, "a@b.com", some "H", false⟩]
        [⟨10, "T", TokenType.EMAIL_VERIFICATION, 1, 100⟩]).tokens.map TokenRec.token).Nodup) ∧
    verifyEmail "T" 50
        (Store.mk [⟨1, "a@b.com", some "H", false⟩]
          [⟨10, "T", TokenType.EMAIL_VERIFICATION, 1, 100⟩])
      = ⟨.ok 1, Store.mk [⟨1, "a@b.com", some "H", true⟩] [], []⟩ ∧
    (Store.mk [⟨1, "a@b.com", some "H", true⟩] []).findToken "T" = none ∧
    (verifyEmail "T" 999 (Store.mk [⟨1, "a@b.com", some "H", true⟩] [])).res
      = .error "Invalid verification token" :=
  ⟨by decide, by decide,
    ((c3_consume_exactly_once
        (Store.mk [⟨1, "a@b.com", some "H", false⟩]
          [⟨10, "T", TokenType.EMAIL_VERIFICATION, 1, 100⟩]) "T" 50 (by decide)
        (fun p => p) "x").1 1 (Store.mk [⟨1, "a@b.com", some "H", true⟩] []) []
      (by decide)).1,
    ((c3_consume_exactly_once
        (Store.mk [⟨1, "a@b.com", some "H", false⟩]
          [⟨10, "T", TokenType.EMAIL_VERIFICATION, 1, 100⟩]) "T" 50 (by decide)
        (fun p => p) "x").1 1 (Store.mk [⟨1, "a@b.com", some "H", true⟩] []) []
      (by decide)).2.1 999⟩

/-! ### C5 -/

/-- C5 counterexample: in the store below, `"T"` names a PASSWORD_RESET
record and `"ZZZ"` names no record, yet `verifyEmail` fails with the *same*
error value for both — there is no distinct purpose-mismatch error; and the
token `"U"` with `expiresAt = 100` is consumed *successfully* at
`now = 100`, although the claim requires failure at the instant
`now = expiresAt`. -/
theorem c5_counterexample :
    (verifyEmail "T" 0
        (Store.mk [⟨1, "a@b.com", some "H", false⟩]
          [⟨10, "T", TokenType.PASSWORD_RESET, 1, 100⟩,
           ⟨11, "U", TokenType.EMAIL_VERIFICATION, 1, 100⟩])).res
      = .error "Invalid verification token" ∧
    (verifyEmail "ZZZ" 0
        (Store.mk [⟨1, "a@b.com", some "H", false⟩]
          [⟨10, "T", TokenType.PASSWORD_RESET, 1, 100⟩,
           ⟨11, "U", TokenType.EMAIL_VERIFICATION, 1, 100⟩])).res
      = .error "Invalid verification token" ∧
    (verifyEmail "U" 100
        (Store.mk [⟨1, "a@b.com", some "H", false⟩]
          [⟨10, "T", TokenType.PASSWORD_RESET, 1, 100⟩,
           ⟨11, "U", TokenType.EMAIL_VERIFICATION, 1, 100⟩])).res
      = .ok 1 := by
  decide

/-- C5 (amended): the consume taxonomy the code implements.  An absent value
and a present record of the wrong purpose fail with one and the same
invalid-token error (no distinct purpose-mismatch error); the expiry test is
strict (`expiresAt < now`), so a record fails as expired only when
`now > expiresAt` and is consumed successfully when `now ≤ expiresAt`
(including the instant `now = expiresAt`), returning the owning userId. -/
theorem c5_consume_taxonomy (s : Store) (v : String) (now : Nat)
    (hashFn : String → String) (np : String) :
    (s.findToken v = none →
       (verifyEmail v now s).res = .error "Invalid verification token" ∧
       (resetPassword hashFn v np now s).res = .error "Invalid reset token") ∧
    (∀ r, s.findToken v = some r → ¬ r.type = TokenType.EMAIL_VERIFICATION →
       (verifyEmail v now s).res = .error "Invalid verification token") ∧
    (∀ r, s.findToken v = some r → ¬ r.type = TokenType.PASSWORD_RESET →
       (resetPassword hashFn v np now s).res = .error "Invalid reset token") ∧
    (∀ r, s.findToken v = some r → r.type = TokenType.EMAIL_VERIFICATION →
       r.expiresAt < now →
       (verifyEmail v now s).res = .error "Verification token has expired") ∧
    (∀ r, s.findToken v = some r → r.type = TokenType.PASSWORD_RESET →
       r.expiresAt < now →
       (resetPassword hashFn v np now s).res = .error "Reset token has expired") ∧
    (∀ r, s.findToken v = some r → r.type = TokenType.EMAIL_VERIFICATION →
       now ≤ r.expiresAt → (verifyEmail v now s).res = .ok r.userId) ∧
    (∀ r, s.findToken v = some r → r.type = TokenType.PASSWORD_RESET →
       now ≤ r.expiresAt → (resetPassword hashFn v np now s).res = .ok r.userId) := by
  refine ⟨?_, ?_, ?_, ?_, ?_, ?_, ?_⟩
  · intro h
    exact ⟨by simp [verifyEmail, h], by simp [resetPassword, h]⟩
  · intro r hfind hty
    simp [verifyEmail, hfind, hty]
  · intro r hfind hty
    simp [resetPassword, resetAfterFind, hfind, hty]
  · intro r hfind hty hexp
    simp [verifyEmail, hfind, hty, hexp]
  · intro r hfind hty hexp
    simp [resetPassword, resetAfterFind, hfind, hty, hexp]
  · intro r hfind hty hle
    have hexp : ¬ r.expiresAt < now := Nat.not_lt.mpr hle
    have hmem' : r ∈ (s.setUserVerified r.userId).tokens :=
      (findToken_mem_token hfind).1
    have hdel := deleteToken_of_mem hmem'
    simp [verifyEmail, hfind, hty, hexp, hdel]
  · intro r hfind hty hle
    have hexp : ¬ r.expiresAt < now := Nat.not_lt.mpr hle
    have hmem' : r ∈ (s.setUserPassword r.userId (hashFn np)).tokens :=
      (findToken_mem_token hfind).1
    have hdel := deleteToken_of_mem hmem'
    simp [resetPassword, resetAfterFind, hfind, hty, hexp, hdel]

/-- Witness for C5 (amended) at the boundary instant `now = expiresAt`:
the reset token with `expiresAt = 100` is consumed successfully at
`now = 100`. -/
theorem c5_witness :
    (Store.mk [⟨1, "a@b.com", some "H", false⟩]
        [⟨10, "T", TokenType.PASSWORD_RESET, 1, 100⟩]).findToken "T"
      = some ⟨10, "T", TokenType.PASSWORD_RESET, 1, 100⟩ ∧
    (resetPassword (fun p => p) "T" "NewPw1" 100
        (Store.mk [⟨1, "a@b.com", some "H", false⟩]
          [⟨10, "T", TokenType.PASSWORD_RESET, 1, 100⟩])).res = .ok 1 :=
  ⟨by decide,
    (c5_consume_taxonomy
        (Store.mk [⟨1, "a@b.com", some "H", false⟩]
          [⟨10, "T", TokenType.PASSWORD_RESET, 1, 100⟩]) "T" 100
        (fun p => p) "NewPw1").2.2.2.2.2.2
      ⟨10, "T", TokenType.PASSWORD_RESET, 1, 100⟩ (by decide) rfl (by decide)⟩

/-! ### C7 -/

/-- C7 counterexample: with a user `"a@b.com"` already in the store,
registering `"A@b.com"` — the same address up to letter case — is NOT
rejected: it succeeds and creates a second user, because the duplicate
check is an exact-match lookup with no case normalisation anywhere on the
path. -/
theorem c7_counterexample :
    (register (fun p => p) true "A@b.com" "Passw0rd1" 2 20 "T" 0
        (Store.mk [⟨1, "a@b.com", some "H", false⟩] [])).res = .ok 2 ∧
    (register (fun p => p) true "A@b.com" "Passw0rd1" 2 20 "T" 0
        (Store.mk [⟨1, "a@b.com", some "H", false⟩] [])).store.users.length = 2 := by
  decide

/-- C7 (amended): the duplicate-email check is an exact, case-sensitive
string comparison.  A register call whose email exactly equals an existing
user's fails with the duplicate error and leaves the store unchanged (no new
user); when no user carries exactly that string — even if one differs only
in letter case — registration proceeds and creates the user. -/
theorem c7_duplicate_email_exact (hashFn : String → String) (emailOk : Bool)
    (email password : String) (fuid ftid : Nat) (tv : String) (now : Nat)
    (s : Store) :
    (∀ u, s.findUserByEmail email = some u →
       register hashFn emailOk email password fuid ftid tv now s
         = ⟨.error "User already exists with this email", s, []⟩) ∧
    (s.findUserByEmail email = none →
       (register hashFn emailOk email password fuid ftid tv now s).res = .ok fuid ∧
       (register hashFn emailOk email password fuid ftid tv now s).store.users
         = s.users ++ [⟨fuid, email, some (hashFn password), false⟩]) := by
  constructor
  · intro u hu
    simp [register, hu]
  · intro h
    exact ⟨by simp [register, h], by simp [register, h, Store.addUser, Store.addToken]⟩

/-- Witness for C7 (amended): exact duplicate rejected with no store change. -/
theorem c7_witness :
    (Store.mk [⟨1, "a@b.com", some "H", false⟩] []).findUserByEmail "a@b.com"
      = some ⟨1, "a@b.com", some "H", false⟩ ∧
    register (fun p => p) true "a@b.com" "Passw0rd1" 2 20 "T" 0
        (Store.mk [⟨1, "a@b.com", some "H", false⟩] [])
      = ⟨.error "User already exists with this email",
         Store.mk [⟨1, "a@b.com", some "H", false⟩] [], []⟩ :=
  ⟨by decide,
    (c7_duplicate_email_exact (fun p => p) true "a@b.com" "Passw0rd1" 2 20 "T" 0
        (Store.mk [⟨1, "a@b.com", some "H", false⟩] [])).1
      ⟨1, "a@b.com", some "H", false⟩ (by decide)⟩

/-! ### C8 -/

/-- C8 counterexample: `config.jwt.expiresIn` comes from the environment
variable `JWT_EXPIRES_IN` and is an admissible configuration input; with it
set to 60 days, the `rememberMe` window (fixed `'30d'`) is NOT strictly
longer than the default window, contradicting "for every admissible
configuration". -/
theorem c8_counterexample :
    ¬ tokenValidityWindow (60 * twentyFourHoursMs) false
      < tokenValidityWindow (60 * twentyFourHoursMs) true := by
  decide

/-- C8 (amended): the `rememberMe` access-token window is the fixed 30 days;
it is strictly longer than the default window exactly when the configured
default TTL is below 30 days, and in particular under the shipped default
configuration `JWT_EXPIRES_IN = '7d'`. -/
theorem c8_extended_lifetime (cfgExpiresIn : Nat) :
    tokenValidityWindow cfgExpiresIn true = thirtyDaysMs ∧
    (cfgExpiresIn < thirtyDaysMs →
      tokenValidityWindow cfgExpiresIn false < tokenValidityWindow cfgExpiresIn true) ∧
    tokenValidityWindow sevenDaysMs false < tokenValidityWindow sevenDaysMs true := by
  refine ⟨by simp [tokenValidityWindow], ?_, ?_⟩
  · intro h
    simpa [tokenValidityWindow] using h
  · show sevenDaysMs < thirtyDaysMs
    decide

/-- Witness for C8 (amended) at the shipped default configuration of 7 days. -/
theorem c8_witness :
    sevenDaysMs < thirtyDaysMs ∧
    tokenValidityWindow sevenDaysMs false < tokenValidityWindow sevenDaysMs true :=
  ⟨by decide, (c8_extended_lifetime sevenDaysMs).2.1 (by decide)⟩

/-! ### C1 -/

/-- Filtering for a predicate after keeping only its complement yields
nothing. -/
theorem filter_not_filter_self {α : Type} (p : α → Prop) [DecidablePred p]
    (l : List α) :
    (l.filter (fun a => ¬ p a)).filter (fun a => p a) = [] := by
  apply List.filter_eq_nil_iff.mpr
  intro a ha
  have h1 := List.of_mem_filter ha
  simp only [decide_eq_true_eq] at h1 ⊢
  exact h1

/-- C1 counterexample: with one unconsumed PASSWORD_RESET record already in
the store for user 1, `forgotPassword` persists a second one WITHOUT
deleting the first: afterwards the store holds two tokens for
`(user 1, PASSWORD_RESET)` and the previously issued value `"OLD"` is still
consumable by `resetPassword`. -/
theorem c1_counterexample :
    ((forgotPassword true "a@b.com" 11 "NEW" 0
        (Store.mk [⟨1, "a@b.com", some "H", false⟩]
          [⟨10, "OLD", TokenType.PASSWORD_RESET, 1, 3600000⟩])).store.tokens.filter
      (fun t => t.userId = 1 ∧ t.type = TokenType.PASSWORD_RESET)).length = 2 ∧
    (resetPassword (fun p => p) "OLD" "NewPw1" 10
        (forgotPassword true "a@b.com" 11 "NEW" 0
          (Store.mk [⟨1, "a@b.com", some "H", false⟩]
            [⟨10, "OLD", TokenType.PASSWORD_RESET, 1, 3600000⟩])).store).res
      = .ok 1 := by
  decide

/-- C1 (amended): the replace-on-issue rule holds for
`resendVerificationEmail` — it deletes every prior EMAIL_VERIFICATION record
of the user before persisting the new one, so afterwards the fresh record is
the single token for that `(user, purpose)` pair and every prior record of
that pair is gone from the store — and `register` issues the single token of
the freshly created user; but `forgotPassword` merely appends its new
PASSWORD_RESET record, deleting nothing, so prior reset tokens survive
re-issuance. -/
theorem c1_token_reissue (emailOk : Bool) (email : String) (ftid : Nat)
    (tv : String) (now : Nat) (s : Store) :
    (∀ u, s.findUserByEmail email = some u → u.isVerified = false →
       ((resendVerificationEmail emailOk email ftid tv now s).store.tokens.filter
           (fun t => t.userId = u.id ∧ t.type = TokenType.EMAIL_VERIFICATION))
         = [⟨ftid, tv, TokenType.EMAIL_VERIFICATION, u.id, now + twentyFourHoursMs⟩] ∧
       (∀ old, old ∈ s.tokens → old.userId = u.id →
         old.type = TokenType.EMAIL_VERIFICATION →
         ¬ old = ⟨ftid, tv, TokenType.EMAIL_VERIFICATION, u.id, now + twentyFourHoursMs⟩ →
         old ∉ (resendVerificationEmail emailOk email ftid tv now s).store.tokens)) ∧
    (∀ hashFn password fuid, s.findUserByEmail email = none →
       (∀ t, t ∈ s.tokens → ¬ t.userId = fuid) →
       ((register hashFn emailOk email password fuid ftid tv now s).store.tokens.filter
           (fun t => t.userId = fuid))
         = [⟨ftid, tv, TokenType.EMAIL_VERIFICATION, fuid, now + twentyFourHoursMs⟩]) ∧
    (∀ u, s.findUserByEmail email = some u →
       (forgotPassword emailOk email ftid tv now s).store.tokens
         = s.tokens ++ [⟨ftid, tv, TokenType.PASSWORD_RESET, u.id, now + oneHourMs⟩]) := by
  refine ⟨?_, ?_, ?_⟩
  · intro u hu hver
    have hstore : (resendVerificationEmail emailOk email ftid tv now s).store.tokens
        = (s.tokens.filter (fun t => ¬ (t.userId = u.id ∧ t.type = TokenType.EMAIL_VERIFICATION)))
          ++ [⟨ftid, tv, TokenType.EMAIL_VERIFICATION, u.id, now + twentyFourHoursMs⟩] := by
      cases emailOk <;>
        simp [resendVerificationEmail, hu, hver, Store.deleteTokensByUserAndType, Store.addToken]
    constructor
    · rw [hstore]
      simp only [List.filter_append, filter_not_filter_self]
      simp
    · intro old hold holdu holdty holdne
      rw [hstore]
      intro hmem
      rcases List.mem_append.mp hmem with hin | hin
      · have := List.of_mem_filter hin
        simp only [decide_eq_true_eq] at this
        exact this ⟨holdu, holdty⟩
      · exact holdne (by simpa using hin)
  · intro hashFn password fuid hnone hfresh
    have hstore : (register hashFn emailOk email password fuid ftid tv now s).store.tokens
        = s.tokens ++ [⟨ftid, tv, TokenType.EMAIL_VERIFICATION, fuid, now + twentyFourHoursMs⟩] := by
      cases emailOk <;> simp [register, hnone, Store.addUser, Store.addToken]
    rw [hstore, List.filter_append]
    have hleft : s.tokens.filter (fun t => t.userId = fuid) = [] := by
      apply List.filter_eq_nil_iff.mpr
      intro t ht
      simpa using hfresh t ht
    rw [hleft]
    simp
  · intro u hu
    simp [forgotPassword, hu, Store.addToken]

/-- Witness for C1 (amended): a concrete `forgotPassword` run on a store
that already holds a reset token, showing the new record appended and the
old one retained. -/
theorem c1_witness :
    (Store.mk [⟨1, "a@b.com", some "H", false⟩]
        [⟨10, "OLD", TokenType.PASSWORD_RESET, 1, 3600000⟩]).findUserByEmail "a@b.com"
      = some ⟨1, "a@b.com", some "H", false⟩ ∧
    (forgotPassword true "a@b.com" 11 "NEW" 0
        (Store.mk [⟨1, "a@b.com", some "H", false⟩]
          [⟨10, "OLD", TokenType.PASSWORD_RESET, 1, 3600000⟩])).store.tokens
      = (Store.mk [⟨1, "a@b.com", some "H", false⟩]
          [⟨10, "OLD", TokenType.PASSWORD_RESET, 1, 3600000⟩]).tokens
        ++ [⟨11, "NEW", TokenType.PASSWORD_RESET, 1, 0 + oneHourMs⟩] :=
  ⟨by decide,
    (c1_token_reissue true "a@b.com" 11 "NEW" 0
        (Store.mk [⟨1, "a@b.com", some "H", false⟩]
          [⟨10, "OLD", TokenType.PASSWORD_RESET, 1, 3600000⟩])).2.2
      ⟨1, "a@b.com", some "H", false⟩ (by decide)⟩

/-! ### C2 -/

/-- C2: the fetch-then-update-then-delete consume sequence is NOT atomic.
In the legal interleaving of two concurrent `resetPassword` calls on the
same valid token `"T"` (both `findUnique` reads before either write), call A
succeeds and call B fails at its `token.delete` (the row is already gone) —
yet B's password update was still applied AFTER the token had been consumed:
the final stored hash is B's `"h:pB"`, not A's, even though B reported
failure.  Under the claimed single-atomic-operation semantics the failing
call would have observed the token as consumed and made no state change. -/
theorem c2_nonatomic_consume :
    (twoResetInterleaved (fun p => String.append "h:" p) "T" "pA" "pB" 1000
        (Store.mk [⟨1, "a@b.com", some "HOLD", false⟩]
          [⟨10, "T", TokenType.PASSWORD_RESET, 1, 2000⟩])).1 = .ok 1 ∧
    (twoResetInterleaved (fun p => String.append "h:" p) "T" "pA" "pB" 1000
        (Store.mk [⟨1, "a@b.com", some "HOLD", false⟩]
          [⟨10, "T", TokenType.PASSWORD_RESET, 1, 2000⟩])).2.1
      = .error "Record to delete does not exist." ∧
    (twoResetInterleaved (fun p => String.append "h:" p) "T" "pA" "pB" 1000
        (Store.mk [⟨1, "a@b.com", some "HOLD", false⟩]
          [⟨10, "T", TokenType.PASSWORD_RESET, 1, 2000⟩])).2.2.findToken "T" = none ∧
    (twoResetInterleaved (fun p => String.append "h:" p) "T" "pA" "pB" 1000
        (Store.mk [⟨1, "a@b.com", some "HOLD", false⟩]
          [⟨10, "T", TokenType.PASSWORD_RESET, 1, 2000⟩])).2.2.users
      = [⟨1, "a@b.com", some "h:pB", false⟩] := by
  decide

/-! ### C4 -/

/-- C4 counterexample: `resendVerificationEmail` does NOT survive an email
send failure — the send is not wrapped in its own try/catch, so the failure
propagates and the flow throws, contradicting "never causes the owning flow
to fail" for this flow. -/
theorem c4_counterexample :
    (resendVerificationEmail false "a@b.com" 11 "NEW" 0
        (Store.mk [⟨1, "a@b.com", some "H", false⟩] [])).res
      = .error "Email send failed" := by
  decide

/-- C4 (amended): `register` and `forgotPassword` wrap the email send in
their own try/catch, so a send failure changes neither the returned result
nor the resulting store; `resendVerificationEmail` does not — a send failure
propagates as the flow's error, although its store changes (the token
replacement) are identical to those of a successful run. -/
theorem c4_email_failure_nonfatal (hashFn : String → String)
    (email password : String) (fuid ftid : Nat) (tv : String) (now : Nat)
    (s : Store) :
    ((register hashFn false email password fuid ftid tv now s).res
       = (register hashFn true email password fuid ftid tv now s).res ∧
     (register hashFn false email password fuid ftid tv now s).store
       = (register hashFn true email password fuid ftid tv now s).store) ∧
    ((forgotPassword false email ftid tv now s).res
       = (forgotPassword true email ftid tv now s).res ∧
     (forgotPassword false email ftid tv now s).store
       = (forgotPassword true email ftid tv now s).store) ∧
    (∀ u, s.findUserByEmail email = some u → u.isVerified = false →
       (resendVerificationEmail false email ftid tv now s).res
         = .error "Email send failed" ∧
       (resendVerificationEmail false email ftid tv now s).store
         = (resendVerificationEmail true email ftid tv now s).store) := by
  refine ⟨?_, ?_, ?_⟩
  · cases hfind : s.findUserByEmail email <;> simp [register, hfind]
  · cases hfind : s.findUserByEmail email <;> simp [forgotPassword, hfind]
  · intro u hu hver
    simp [resendVerificationEmail, hu, hver]

/-- Witness for C4 (amended) at a concrete store with an unverified user. -/
theorem c4_witness :
    (Store.mk [⟨1, "a@b.com", some "H", false⟩] []).findUserByEmail "a@b.com"
      = some ⟨1, "a@b.com", some "H", false⟩ ∧
    (⟨1, "a@b.com", some "H", false⟩ : User).isVerified = false ∧
    (resendVerificationEmail false "a@b.com" 11 "NEW" 0
        (Store.mk [⟨1, "a@b.com", some "H", false⟩] [])).store
      = (resendVerificationEmail true "a@b.com" 11 "NEW" 0
          (Store.mk [⟨1, "a@b.com", some "H", false⟩] [])).store :=
  ⟨by decide, by decide,
    ((c4_email_failure_nonfatal (fun p => p) "a@b.com" "pw" 2 11 "NEW" 0
        (Store.mk [⟨1, "a@b.com", some "H", false⟩] [])).2.2
      ⟨1, "a@b.com", some "H", false⟩ (by decide) (by decide)).2⟩
